import Mathlib

/-!
Shallow embedding of `dump.py` (frida-ipa-dump): the path sandbox
(`IPADump.local_path`), the per-file transfer task (`Task`), the session
registry and event router (`IPADump.on_message` and its handlers), and the
workspace lifetime of `IPADump.run`.

Python exceptions are modelled explicitly: handlers return their post-state
together with an `Option PyErr` (`none` = returned normally, `some e` = the
exception `e` propagated out of the handler).  Machine-level side effects
(the `os.utime` / `os.chmod` / `os.mkdir` syscalls) are recorded as traces;
their outcomes (e.g. the file having vanished) are supplied as parameters.
-/

namespace Dump

/-- Python exception values that the code in `dump.py` can raise or catch. -/
inductive PyErr
  /-- `ValueError('path "%s" is illegal')` raised by `IPADump.local_path`;
      the payload is the offending relative path. -/
  | valueError (relative : String)
  /-- `KeyError`: a failed `dict` lookup (`self.tasks[session]`,
      `method_mapping[payload.get('event')]`). -/
  | keyError
  /-- `TypeError`: a handler invoked with a required keyword argument missing. -/
  | typeError
  /-- `FileNotFoundError` from `os.utime` / `os.chmod` on a vanished file. -/
  | fileNotFound
  /-- `PermissionError` (an `OSError` subclass other than `FileNotFoundError`). -/
  | permissionError
  /-- any other `OSError`, tagged by errno. -/
  | osError (code : Nat)
  /-- `SystemExit(code)` as raised by `sys.exit(code)`. -/
  | systemExit (code : Int)
deriving DecidableEq, Repr

/-- `s.startswith(p)` of Python `str`, evaluated on the character lists. -/
def strStartsWith (s p : String) : Bool :=
  p.toList.isPrefixOf s.toList

/-- `s.endswith(p)` of Python `str`, evaluated on the character lists. -/
def strEndsWith (s p : String) : Bool :=
  p.toList.isSuffixOf s.toList

/-- `os.path.join(a, b)` on POSIX: an absolute `b` discards `a`; otherwise `b`
is appended to `a`, inserting `'/'` unless `a` is empty or already ends in
`'/'`.  No normalization of `'..'` or `'.'` segments is performed. -/
def osPathJoin (a b : String) : String :=
  if strStartsWith b "/" then b
  else if a = "" || strEndsWith a "/" then a ++ b
  else a ++ "/" ++ b

namespace IPADump

/-- `IPADump.local_path(self, relative)`: joins `relative` onto the workspace
root `tempdir` and raises `ValueError` when the joined string does not start
with the root; otherwise returns the joined string unchanged. -/
def local_path (tempdir relative : String) : Except PyErr String :=
  let lp := osPathJoin tempdir relative
  if strStartsWith lp tempdir then .ok lp
  else .error (.valueError relative)

end IPADump

instance : DecidableEq (Except PyErr String) := fun a b =>
  match a, b with
  | .ok x, .ok y =>
      if h : x = y then .isTrue (by rw [h]) else .isFalse (by simp [h])
  | .ok _, .error _ => .isFalse (by simp)
  | .error _, .ok _ => .isFalse (by simp)
  | .error x, .error y =>
      if h : x = y then .isTrue (by rw [h]) else .isFalse (by simp [h])

/-! OS-level path resolution (the semantics the kernel applies to a path that
the program hands to a syscall): splitting on `'/'`, dropping empty and `'.'`
segments, and resolving `'..'` against the preceding segment.  This is used
to express where a returned path actually lands, independently of the
program's own (non-normalizing) check. -/

/-- Split a character list on `'/'`. -/
def splitOnSlash : List Char → List Char → List (List Char)
  | [], acc => [acc.reverse]
  | '/' :: rest, acc => acc.reverse :: splitOnSlash rest []
  | c :: rest, acc => splitOnSlash rest (c :: acc)

/-- Resolve `'.'`, `''` and `'..'` segments the way the kernel does when
resolving a path from the root. -/
def normSegs (segs : List (List Char)) : List (List Char) :=
  segs.foldl
    (fun acc seg =>
      if seg = [] ∨ seg = ['.'] then acc
      else if seg = ['.', '.'] then acc.dropLast
      else acc ++ [seg])
    []

/-- The resolved segment list of an absolute path string. -/
def pathSegs (s : String) : List (List Char) :=
  normSegs (splitOnSlash s.toList [])

/-- `p` resolves to a strict descendant of the directory `root`. -/
def isStrictlyUnder (root p : String) : Bool :=
  pathSegs root ≠ pathSegs p ∧ (pathSegs root).isPrefixOf (pathSegs p)

/-! The per-file transfer task.  `Task.__init__` opens `self.path` for binary
writing (creating/truncating the file), `write` appends to the handle, and
`finish` closes the handle and then best-effort restores metadata inside a
`try: ... except FileNotFoundError: pass` block.  The bytes written through
the handle are carried in `contents`; the metadata syscalls of `finish` are
returned as a trace, with each syscall's outcome (what it would raise, if
anything) supplied as a parameter. -/

/-- The file attributes accompanying a transfer (Python dict `info`):
`info.get('creation')` / `info.get('modification')` yield `none` when the key
is absent; `info['permission']` is required.  Timestamps are numbers; only
their truthiness and value matter here, modelled as `Int`. -/
structure FileInfo where
  creation : Option Int
  modification : Option Int
  permission : Nat
deriving DecidableEq, Repr

/-- Python truthiness of an optional numeric field: `None` and `0` are falsy. -/
def pyTruthy : Option Int → Bool
  | none => false
  | some v => decide (v ≠ 0)

/-- `all(time_pair)` for `time_pair = (info.get('creation'),
info.get('modification'))`: true iff both values are present and truthy. -/
def timePairAll (info : FileInfo) : Bool :=
  pyTruthy info.creation && pyTruthy info.modification

/-- A metadata syscall issued by `Task.finish`. -/
inductive Syscall
  /-- `os.utime(path, (creation, modification))`. -/
  | utime (path : String) (creation modification : Int)
  /-- `os.chmod(path, permission)`. -/
  | chmod (path : String) (permission : Nat)
deriving DecidableEq, Repr

/-- Whether a trace contains a `utime` syscall. -/
def hasUtime (tr : List Syscall) : Bool :=
  tr.any (fun sc => match sc with | .utime _ _ _ => true | .chmod _ _ => false)

/-- Whether a trace contains a `chmod` syscall. -/
def hasChmod (tr : List Syscall) : Bool :=
  tr.any (fun sc => match sc with | .utime _ _ _ => false | .chmod _ _ => true)

/-- One in-flight transfer: `Task(session, path, info)` with the bytes written
so far through its open handle. -/
structure Task where
  session : Nat
  path : String
  info : FileInfo
  contents : List Nat
deriving DecidableEq, Repr

/-- `Task.write(self, data)`: `self.file.write(data)` appends `data` to the
open handle, in call order. -/
def Task.write (t : Task) (data : List Nat) : Task :=
  { t with contents := t.contents ++ data }

/-- `Task.finish(self)`: after closing the handle, run
`try: if all(time_pair): os.utime(...); os.chmod(...) except FileNotFoundError: pass`.
`utimeErr` / `chmodErr` give what each syscall would raise if it is reached
(`none` = it would succeed); a vanished file makes both `some .fileNotFound`.
Returns the trace of syscalls actually issued and the exception propagating
out of `finish`, if any.  `catchFNF` is the surrounding
`except FileNotFoundError: pass` clause. -/
def catchFNF (r : List Syscall × Option PyErr) : List Syscall × Option PyErr :=
  (r.1, if r.2 = some .fileNotFound then none else r.2)

/-- `Task.finish(self)`: the `try` block issues `os.utime` only when
`all(time_pair)` holds and then `os.chmod`, an exception from either
aborting the block; `catchFNF` then swallows exactly `FileNotFoundError`. -/
def Task.finish (t : Task) (utimeErr chmodErr : Option PyErr) :
    List Syscall × Option PyErr :=
  catchFNF
    (match t.info.creation, t.info.modification with
     | some c, some m =>
         if c ≠ 0 ∧ m ≠ 0 then
           match utimeErr with
           | some e => ([.utime t.path c m], some e)
           | none => ([.utime t.path c m, .chmod t.path t.info.permission], chmodErr)
         else ([.chmod t.path t.info.permission], chmodErr)
     | _, _ => ([.chmod t.path t.info.permission], chmodErr))

example :
    Task.finish ⟨1, "/w/f", ⟨some 3, some 4, 420⟩, []⟩ none none
      = ([.utime "/w/f" 3 4, .chmod "/w/f" 420], none) := by decide
example :
    Task.finish ⟨1, "/w/f", ⟨some 0, some 4, 420⟩, []⟩ none none
      = ([.chmod "/w/f" 420], none) := by decide
example :
    Task.finish ⟨1, "/w/f", ⟨some 3, some 4, 420⟩, []⟩
      (some .fileNotFound) (some .fileNotFound)
      = ([.utime "/w/f" 3 4], none) := by decide
example :
    Task.finish ⟨1, "/w/f", ⟨none, none, 420⟩, []⟩ none (some .permissionError)
      = ([.chmod "/w/f" 420], some .permissionError) := by decide

example : IPADump.local_path "/tmp/ws" "../escape" = .ok "/tmp/ws/../escape" := by decide
example : IPADump.local_path "/tmp/ws" "/etc/passwd" = .error (.valueError "/etc/passwd") := by decide
example : IPADump.local_path "/tmp/ws" "/tmp/ws2/x" = .ok "/tmp/ws2/x" := by decide
example : pathSegs "/tmp/ws/../escape" = pathSegs "/tmp/escape" := by decide
example : isStrictlyUnder "/tmp/ws" "/tmp/ws/../escape" = false := by decide
example : isStrictlyUnder "/tmp/ws" "/tmp/ws2/x" = false := by decide
example : isStrictlyUnder "/tmp/ws" "/tmp/ws/a" = true := by decide

/-! The session registry `self.tasks` is a Python `dict` keyed by the opaque
session handle (modelled as `Nat`), embedded as an association list carrying
insertion order: assignment to a present key replaces the value in place,
assignment to an absent key appends, lookup of an absent key raises
`KeyError`. -/

/-- `d[k]` lookup on the registry, `none` when the key is absent. -/
def alookup : List (Nat × Task) → Nat → Option Task
  | [], _ => none
  | p :: rest, k => if p.1 = k then some p.2 else alookup rest k

/-- `d[k] = v` on the registry: replace in place when present, append when
absent (Python dict insertion-order semantics). -/
def dictSet (ts : List (Nat × Task)) (k : Nat) (v : Task) : List (Nat × Task) :=
  if (alookup ts k).isSome then
    ts.map (fun p => if p.1 = k then (k, v) else p)
  else ts ++ [(k, v)]

/-- `del d[k]` on the registry (only reached when `k` is present). -/
def dictDel (ts : List (Nat × Task)) (k : Nat) : List (Nat × Task) :=
  ts.filter (fun p => p.1 != k)

/-- The mutable state of an `IPADump` object during `run`, together with the
filesystem effects the handlers have requested: `mkdirCalls` records each
`os.mkdir` syscall issued, and `finished` records, per call of
`Task.finish`, the closed file's path and final contents. -/
structure IPADumpState where
  tempdir : String
  tasks : List (Nat × Task)
  mkdirCalls : List String
  finished : List (String × List Nat)
deriving DecidableEq, Repr

namespace IPADump

/-- `IPADump.on_download_start`: resolve the sandboxed path (a `ValueError`
from `local_path` propagates before any task is created or file opened),
then `self.tasks[session] = Task(session, local_path, info)` — a plain dict
assignment, which replaces any task already stored under `session`. -/
def on_download_start (st : IPADumpState) (session : Nat)
    (relative : String) (info : FileInfo) : IPADumpState × Option PyErr :=
  match local_path st.tempdir relative with
  | .error e => (st, some e)
  | .ok lp =>
      ({ st with tasks := dictSet st.tasks session ⟨session, lp, info, []⟩ }, none)

/-- `IPADump.on_download_data`: `self.tasks[session].write(data)`; the dict
lookup raises `KeyError` when `session` is unknown, before any mutation. -/
def on_download_data (st : IPADumpState) (session : Nat) (data : List Nat) :
    IPADumpState × Option PyErr :=
  match alookup st.tasks session with
  | none => (st, some .keyError)
  | some t =>
      ({ st with tasks := dictSet st.tasks session (t.write data) }, none)

/-- `IPADump.close_session`: `self.tasks[session].finish()` then
`del self.tasks[session]`.  The dict lookup raises `KeyError` when `session`
is unknown, before any mutation.  `finish` closes the handle, making the
written contents the file's durable contents (recorded in `finished`); its
metadata syscalls are modelled by `Task.finish` above. -/
def close_session (st : IPADumpState) (session : Nat) :
    IPADumpState × Option PyErr :=
  match alookup st.tasks session with
  | none => (st, some .keyError)
  | some t =>
      ({ st with tasks := dictDel st.tasks session,
                 finished := st.finished ++ [(t.path, t.contents)] }, none)

/-- `IPADump.on_download_finish`: forwards to `close_session`. -/
def on_download_finish (st : IPADumpState) (session : Nat) :
    IPADumpState × Option PyErr :=
  close_session st session

/-- `IPADump.on_download_error`: forwards to `close_session`. -/
def on_download_error (st : IPADumpState) (session : Nat) :
    IPADumpState × Option PyErr :=
  close_session st session

/-- `IPADump.on_mkdir`: resolve the sandboxed path, then issue
`os.mkdir(local_path)` (recorded in `mkdirCalls`; the OS resolves the raw
string it is given).  A `ValueError` from `local_path` propagates first. -/
def on_mkdir (st : IPADumpState) (path : String) : IPADumpState × Option PyErr :=
  match local_path st.tempdir path with
  | .error e => (st, some e)
  | .ok lp => ({ st with mkdirCalls := st.mkdirCalls ++ [lp] }, none)

end IPADump

/-- The payload dict of a `send` envelope; every field the handlers consume,
each `none` when the key is absent. -/
structure Payload where
  subject : Option String
  event : Option String
  session : Option Nat
  relative : Option String
  path : Option String
  info : Option FileInfo
deriving DecidableEq, Repr

/-- An inbound frida message: the envelope's `type` field and its `payload`
dict (absent on non-`send` envelopes). -/
structure Msg where
  type : Option String
  payload : Option Payload
deriving DecidableEq, Repr

/-- How one `on_message` callback invocation ends: return normally (the
event loop continues), `sys.exit(0)` on the `finish` subject, or an uncaught
exception. -/
inductive Outcome
  | proceed
  | exit0
  | raised (e : PyErr)
deriving DecidableEq, Repr

/-- Lift a handler result into an `Outcome`: an exception propagating out of
the handler propagates out of `on_message`. -/
def toOutcome : IPADumpState × Option PyErr → IPADumpState × Outcome
  | (st, none) => (st, .proceed)
  | (st, some e) => (st, .raised e)

/-- `IPADump.on_message(self, msg, data)`: envelopes whose `type` is not
`'send'` are printed and ignored; within a `send` envelope the `subject`
selects the sub-protocol; under `'download'`,
`method_mapping[payload.get('event')]` raises `KeyError` on an unrecognized
event; `'finish'` detaches and calls `sys.exit(0)`; `'mkdir'` forwards to
`on_mkdir`; any other subject is printed and ignored.  A handler invoked with
a required keyword argument missing raises `TypeError`. -/
def IPADump.on_message (st : IPADumpState) (msg : Msg) (data : List Nat) :
    IPADumpState × Outcome :=
  if msg.type ≠ some "send" then (st, .proceed)
  else
    let payload := msg.payload.getD ⟨none, none, none, none, none, none⟩
    if payload.subject = some "download" then
      if payload.event = some "start" then
        match payload.session, payload.relative, payload.info with
        | some s, some rel, some info => toOutcome (IPADump.on_download_start st s rel info)
        | _, _, _ => (st, .raised .typeError)
      else if payload.event = some "data" then
        match payload.session with
        | some s => toOutcome (IPADump.on_download_data st s data)
        | none => (st, .raised .typeError)
      else if payload.event = some "end" then
        match payload.session with
        | some s => toOutcome (IPADump.on_download_finish st s)
        | none => (st, .raised .typeError)
      else if payload.event = some "error" then
        match payload.session with
        | some s => toOutcome (IPADump.on_download_error st s)
        | none => (st, .raised .typeError)
      else (st, .raised .keyError)
    else if payload.subject = some "finish" then (st, .exit0)
    else if payload.subject = some "mkdir" then
      match payload.path with
      | some p => toOutcome (IPADump.on_mkdir st p)
      | none => (st, .raised .typeError)
    else (st, .proceed)

/-- Drive a sequence of `download`/`data` events for one session key through
the handler, reporting the final state and whether every event returned
without raising. -/
def runData : IPADumpState → Nat → List (List Nat) → IPADumpState × Bool
  | st, _, [] => (st, true)
  | st, k, b :: rest =>
      let step := IPADump.on_download_data st k b
      let tail := runData step.1 k rest
      (tail.1, step.2.isNone && tail.2)

/-- `p` lies strictly below directory `d` as a raw string (its text extends
`d ++ "/"`). -/
def isUnderDir (d p : String) : Bool :=
  strStartsWith p (d ++ "/")

/-- `shutil.rmtree`-style removal performed by `TemporaryDirectory.__exit__`:
the directory and everything below it are removed from the filesystem. -/
def removeTree (d : String) (fs : List String) : List String :=
  fs.filter (fun p => !(p == d || isUnderDir d p))

/-- `IPADump.run(self)`: `with tempfile.TemporaryDirectory() as tempdir:`
creates the workspace, runs the body (`inject`, then `make_archive`), and —
by the `with` statement's semantics — removes the workspace tree whether the
body returns normally or raises (including `SystemExit`), the body's outcome
then propagating.  The body's filesystem effects and outcome are abstracted
as parameters, since they are driven by the remote agent. -/
def IPADump.run (fs0 : List String) (tempdir : String)
    (bodyFs : List String → List String) (bodyResult : Option PyErr) :
    List String × Option PyErr :=
  let fs1 := tempdir :: fs0
  let fs2 := bodyFs fs1
  (removeTree tempdir fs2, bodyResult)

/-! Registry lemmas. -/

theorem alookup_map_set (ts : List (Nat × Task)) (k : Nat) (v : Task)
    (h : (alookup ts k).isSome = true) :
    alookup (ts.map (fun p => if p.1 = k then (k, v) else p)) k = some v := by
  induction ts with
  | nil => simp [alookup] at h
  | cons p rest ih =>
      by_cases hp : p.1 = k
      · simp [alookup, hp]
      · simp [alookup, hp] at h ⊢
        exact ih h

theorem alookup_append_absent (ts : List (Nat × Task)) (k : Nat) (v : Task)
    (h : alookup ts k = none) :
    alookup (ts ++ [(k, v)]) k = some v := by
  induction ts with
  | nil => simp [alookup]
  | cons p rest ih =>
      by_cases hp : p.1 = k
      · simp [alookup, hp] at h
      · simp [alookup, hp] at h ⊢
        exact ih h

theorem alookup_dictSet_self (ts : List (Nat × Task)) (k : Nat) (v : Task) :
    alookup (dictSet ts k v) k = some v := by
  unfold dictSet
  by_cases h : (alookup ts k).isSome = true
  · rw [if_pos h]
    exact alookup_map_set ts k v h
  · rw [if_neg h]
    exact alookup_append_absent ts k v (Option.not_isSome_iff_eq_none.mp h)

theorem alookup_dictDel_self (ts : List (Nat × Task)) (k : Nat) :
    alookup (dictDel ts k) k = none := by
  induction ts with
  | nil => rfl
  | cons p rest ih =>
      by_cases hp : p.1 = k
      · simpa [dictDel, hp] using ih
      · simpa [dictDel, alookup, hp] using ih

/-- Invariant of a run of `data` events on one key: every event returns
without raising, the key's task accumulates exactly the concatenation of the
payloads (order kept, nothing lost, nothing duplicated, empty payloads
harmless), and nothing else about the state changes. -/
theorem runData_spec (k : Nat) :
    ∀ (bs : List (List Nat)) (st : IPADumpState) (t : Task),
      alookup st.tasks k = some t →
      (runData st k bs).2 = true
      ∧ alookup (runData st k bs).1.tasks k
          = some { t with contents := t.contents ++ bs.flatten }
      ∧ (runData st k bs).1.finished = st.finished
      ∧ (runData st k bs).1.tempdir = st.tempdir := by
  intro bs
  induction bs with
  | nil =>
      intro st t h
      simp [runData, h]
  | cons b rest ih =>
      intro st t h
      have hstep : IPADump.on_download_data st k b
          = ({ st with tasks := dictSet st.tasks k (t.write b) }, none) := by
        simp [IPADump.on_download_data, h]
      have hlook : alookup (dictSet st.tasks k (t.write b)) k = some (t.write b) :=
        alookup_dictSet_self _ _ _
      have htail := ih { st with tasks := dictSet st.tasks k (t.write b) } (t.write b) hlook
      simp only [runData, hstep, Option.isNone_none, Bool.true_and]
      refine ⟨htail.1, ?_, htail.2.2.1, htail.2.2.2⟩
      simpa [Task.write, List.append_assoc] using htail.2.1

/-! Characterization of `Task.finish`. -/

/-- When `timePairAll` holds, both timestamps are present and nonzero. -/
theorem timePairAll_elim (info : FileInfo) (h : timePairAll info = true) :
    ∃ cv mv, info.creation = some cv ∧ info.modification = some mv
      ∧ cv ≠ 0 ∧ mv ≠ 0 := by
  rcases hcr : info.creation with _ | cv <;>
    rcases hmo : info.modification with _ | mv <;>
      simp [timePairAll, pyTruthy, hcr, hmo] at h ⊢
  exact h

/-- With `all(time_pair)` false, `finish` skips `utime` and issues only
`chmod`, whose outcome goes through the `FileNotFoundError` filter. -/
theorem finish_of_not_all (t : Task) (u c : Option PyErr)
    (h : timePairAll t.info = false) :
    t.finish u c = ([.chmod t.path t.info.permission],
      if c = some .fileNotFound then none else c) := by
  unfold Task.finish catchFNF
  rcases hcr : t.info.creation with _ | cv
  · simp [hcr]
  rcases hmo : t.info.modification with _ | mv
  · simp [hcr, hmo]
  have hz : ¬(cv ≠ 0 ∧ mv ≠ 0) := by
    simp [timePairAll, pyTruthy, hcr, hmo] at h
    tauto
  simp [hcr, hmo, hz]

/-- With `all(time_pair)` true, `finish` issues `utime` first; a raising
`utime` aborts the block before `chmod`, otherwise `chmod` follows, and the
propagated exception goes through the `FileNotFoundError` filter. -/
theorem finish_of_all (t : Task) (u c : Option PyErr) (cv mv : Int)
    (hcr : t.info.creation = some cv) (hmo : t.info.modification = some mv)
    (hcv : cv ≠ 0) (hmv : mv ≠ 0) :
    t.finish u c =
      match u with
      | some e => ([.utime t.path cv mv], if e = .fileNotFound then none else some e)
      | none => ([.utime t.path cv mv, .chmod t.path t.info.permission],
                 if c = some .fileNotFound then none else c) := by
  unfold Task.finish catchFNF
  rcases u with _ | e <;> simp [hcr, hmo, hcv, hmv]

/-! Claim theorems. -/

/-- A concrete quiescent dump state over workspace root `/tmp/ws`. -/
def st0 : IPADumpState := ⟨"/tmp/ws", [], [], []⟩

/-- C1: the claimed invariant — every relative path that escapes via `..`
segments fails with the IllegalPath `ValueError` and causes no filesystem
mutation — fails in the code.  At workspace root `/tmp/ws` the escaping path
`../escape` is accepted: `local_path` returns the unnormalized
`/tmp/ws/../escape` (the raw `startswith` check passes because `os.path.join`
does not normalize), that string resolves outside the root (to
`/tmp/escape`, not a descendant of `/tmp/ws`), and `on_mkdir` proceeds to
issue the `os.mkdir` syscall for it instead of raising. -/
theorem C1_dotdot_escape_accepted :
    IPADump.local_path "/tmp/ws" "../escape" = .ok "/tmp/ws/../escape"
    ∧ pathSegs "/tmp/ws/../escape" = pathSegs "/tmp/escape"
    ∧ isStrictlyUnder "/tmp/ws" "/tmp/ws/../escape" = false
    ∧ IPADump.on_mkdir st0 "../escape"
        = (⟨"/tmp/ws", [], ["/tmp/ws/../escape"], []⟩, none) := by
  refine ⟨by decide, by decide, by decide, by decide⟩

/-- C10: the containment test of `local_path` is a raw string-prefix check
on the unnormalized joined path — every accepted result is exactly
`os.path.join(root, relative)` with `startswith(root)` true, uncanonicalized —
so the absolute path `/tmp/ws2/x`, whose text begins with the root string
`/tmp/ws`, is accepted although it is a sibling of the root, not a
descendant. -/
theorem C10_raw_string_containment :
    (∀ root rel lp, IPADump.local_path root rel = .ok lp →
        lp = osPathJoin root rel ∧ strStartsWith lp root = true)
    ∧ IPADump.local_path "/tmp/ws" "/tmp/ws2/x" = .ok "/tmp/ws2/x"
    ∧ isStrictlyUnder "/tmp/ws" "/tmp/ws2/x" = false := by
  refine ⟨?_, by decide, by decide⟩
  intro root rel lp h
  unfold IPADump.local_path at h
  by_cases hc : strStartsWith (osPathJoin root rel) root = true
  · rw [if_pos hc] at h
    cases h
    exact ⟨rfl, hc⟩
  · rw [if_neg hc] at h
    cases h

/-- C10 witness: the general component applied at root `/tmp/ws` and the
sibling absolute path. -/
theorem C10_raw_string_containment_witness :
    "/tmp/ws2/x" = osPathJoin "/tmp/ws" "/tmp/ws2/x"
    ∧ strStartsWith "/tmp/ws2/x" "/tmp/ws" = true :=
  C10_raw_string_containment.1 "/tmp/ws" "/tmp/ws2/x" "/tmp/ws2/x" (by decide)

/-- C5: a `data`, `end`, or `error` event for a session key with no prior
`start` fails with the unknown-session lookup error (`KeyError` from
`self.tasks[session]`) and returns the state unchanged — the registry and
every open task are exactly as before. -/
theorem C5_unknown_session_rejected (st : IPADumpState) (k : Nat)
    (data : List Nat) (h : alookup st.tasks k = none) :
    IPADump.on_download_data st k data = (st, some .keyError)
    ∧ IPADump.on_download_finish st k = (st, some .keyError)
    ∧ IPADump.on_download_error st k = (st, some .keyError) := by
  refine ⟨?_, ?_, ?_⟩ <;>
    simp [IPADump.on_download_data, IPADump.on_download_finish,
      IPADump.on_download_error, IPADump.close_session, h]

/-- C5 witness: in a state holding an open task for key 1, events for the
unknown key 2 fail with `KeyError` and leave the state (task 1 included)
unchanged. -/
theorem C5_unknown_session_rejected_witness :
    IPADump.on_download_data
        ⟨"/tmp/ws", [(1, ⟨1, "/tmp/ws/a", ⟨none, none, 420⟩, [7]⟩)], [], []⟩ 2 [9]
      = (⟨"/tmp/ws", [(1, ⟨1, "/tmp/ws/a", ⟨none, none, 420⟩, [7]⟩)], [], []⟩,
         some .keyError)
    ∧ IPADump.on_download_finish
        ⟨"/tmp/ws", [(1, ⟨1, "/tmp/ws/a", ⟨none, none, 420⟩, [7]⟩)], [], []⟩ 2
      = (⟨"/tmp/ws", [(1, ⟨1, "/tmp/ws/a", ⟨none, none, 420⟩, [7]⟩)], [], []⟩,
         some .keyError)
    ∧ IPADump.on_download_error
        ⟨"/tmp/ws", [(1, ⟨1, "/tmp/ws/a", ⟨none, none, 420⟩, [7]⟩)], [], []⟩ 2
      = (⟨"/tmp/ws", [(1, ⟨1, "/tmp/ws/a", ⟨none, none, 420⟩, [7]⟩)], [], []⟩,
         some .keyError) :=
  C5_unknown_session_rejected
    ⟨"/tmp/ws", [(1, ⟨1, "/tmp/ws/a", ⟨none, none, 420⟩, [7]⟩)], [], []⟩ 2 [9]
    (by decide)

/-- C4: for a session key started on a sandbox-accepted path, a sequence of
sequential `data` events with payloads `b1..bn` followed by `end` closes the
file with contents exactly `b1 ++ b2 ++ ... ++ bn` — order kept, nothing
lost, nothing duplicated, empty payloads tolerated — every event returning
without error, and the key removed from the registry. -/
theorem C4_contents_are_concat (st : IPADumpState) (k : Nat) (rel lp : String)
    (info : FileInfo) (bs : List (List Nat))
    (h : IPADump.local_path st.tempdir rel = .ok lp) :
    (IPADump.on_download_start st k rel info).2 = none
    ∧ (runData (IPADump.on_download_start st k rel info).1 k bs).2 = true
    ∧ (IPADump.on_download_finish
        (runData (IPADump.on_download_start st k rel info).1 k bs).1 k).2 = none
    ∧ (IPADump.on_download_finish
        (runData (IPADump.on_download_start st k rel info).1 k bs).1 k).1.finished
        = st.finished ++ [(lp, bs.flatten)]
    ∧ alookup (IPADump.on_download_finish
        (runData (IPADump.on_download_start st k rel info).1 k bs).1 k).1.tasks k
        = none := by
  have hstart : IPADump.on_download_start st k rel info
      = ({ st with tasks := dictSet st.tasks k ⟨k, lp, info, []⟩ }, none) := by
    simp [IPADump.on_download_start, h]
  have hlook : alookup (dictSet st.tasks k ⟨k, lp, info, []⟩) k
      = some ⟨k, lp, info, []⟩ := alookup_dictSet_self _ _ _
  have hrun := runData_spec k bs
    { st with tasks := dictSet st.tasks k ⟨k, lp, info, []⟩ } ⟨k, lp, info, []⟩ hlook
  refine ⟨by simp [hstart], ?_, ?_, ?_, ?_⟩
  · simpa [hstart] using hrun.1
  · simp [hstart, IPADump.on_download_finish, IPADump.close_session, hrun.2.1]
  · simp [hstart, IPADump.on_download_finish, IPADump.close_session, hrun.2.1,
      hrun.2.2.1]
  · simp [hstart, IPADump.on_download_finish, IPADump.close_session, hrun.2.1,
      alookup_dictDel_self]

/-- C4 witness: key 1, path `a` under root `/tmp/ws`, payloads
`[1,2]`, `[]` (empty tolerated), `[3]` — the closed file holds `[1,2,3]`. -/
theorem C4_contents_are_concat_witness :
    (IPADump.on_download_start st0 1 "a" ⟨none, none, 420⟩).2 = none
    ∧ (runData (IPADump.on_download_start st0 1 "a" ⟨none, none, 420⟩).1 1
        [[1, 2], [], [3]]).2 = true
    ∧ (IPADump.on_download_finish
        (runData (IPADump.on_download_start st0 1 "a" ⟨none, none, 420⟩).1 1
          [[1, 2], [], [3]]).1 1).2 = none
    ∧ (IPADump.on_download_finish
        (runData (IPADump.on_download_start st0 1 "a" ⟨none, none, 420⟩).1 1
          [[1, 2], [], [3]]).1 1).1.finished
        = st0.finished ++ [("/tmp/ws/a", [[1, 2], [], [3]].flatten)]
    ∧ alookup (IPADump.on_download_finish
        (runData (IPADump.on_download_start st0 1 "a" ⟨none, none, 420⟩).1 1
          [[1, 2], [], [3]]).1 1).1.tasks 1
        = none :=
  C4_contents_are_concat st0 1 "a" "/tmp/ws/a" ⟨none, none, 420⟩
    [[1, 2], [], [3]] (by decide)

/-- C3 counterexample: in a state whose registry already holds an open task
for key 1, a second `download:start` for key 1 does not fail — it returns no
error and silently replaces the registry entry with a fresh task, abandoning
the first task's open handle; no DuplicateSession check exists. -/
theorem C3_duplicate_start_counterexample :
    (IPADump.on_download_start
        ⟨"/tmp/ws", [(1, ⟨1, "/tmp/ws/old", ⟨none, none, 384⟩, [7]⟩)], [], []⟩
        1 "new" ⟨none, none, 420⟩).2 = none
    ∧ (IPADump.on_download_start
        ⟨"/tmp/ws", [(1, ⟨1, "/tmp/ws/old", ⟨none, none, 384⟩, [7]⟩)], [], []⟩
        1 "new" ⟨none, none, 420⟩).1.tasks
      = [(1, ⟨1, "/tmp/ws/new", ⟨none, none, 420⟩, []⟩)] := by
  refine ⟨by decide, by decide⟩

/-- C3 amended: a second `download:start` for a key already present (and any
sandbox-accepted path) raises nothing and replaces the stored task with a
fresh one for the new path — the dict assignment
`self.tasks[session] = Task(...)` overwrites, and the previous task's open
handle is dropped without being closed. -/
theorem C3_duplicate_start_replaces (st : IPADumpState) (k : Nat)
    (rel lp : String) (info : FileInfo) (t : Task)
    (_hk : alookup st.tasks k = some t)
    (h : IPADump.local_path st.tempdir rel = .ok lp) :
    IPADump.on_download_start st k rel info
      = ({ st with tasks := dictSet st.tasks k ⟨k, lp, info, []⟩ }, none)
    ∧ alookup (IPADump.on_download_start st k rel info).1.tasks k
      = some ⟨k, lp, info, []⟩ := by
  refine ⟨by simp [IPADump.on_download_start, h], ?_⟩
  simp [IPADump.on_download_start, h, alookup_dictSet_self]

/-- C3 amended witness: the duplicate `start` of the counterexample state,
through the amended theorem. -/
theorem C3_duplicate_start_replaces_witness :
    IPADump.on_download_start
        ⟨"/tmp/ws", [(1, ⟨1, "/tmp/ws/old", ⟨none, none, 384⟩, [7]⟩)], [], []⟩
        1 "new" ⟨none, none, 420⟩
      = ({ (⟨"/tmp/ws", [(1, ⟨1, "/tmp/ws/old", ⟨none, none, 384⟩, [7]⟩)], [], []⟩ :
            IPADumpState) with
          tasks := dictSet [(1, ⟨1, "/tmp/ws/old", ⟨none, none, 384⟩, [7]⟩)] 1
            ⟨1, "/tmp/ws/new", ⟨none, none, 420⟩, []⟩ }, none)
    ∧ alookup (IPADump.on_download_start
        ⟨"/tmp/ws", [(1, ⟨1, "/tmp/ws/old", ⟨none, none, 384⟩, [7]⟩)], [], []⟩
        1 "new" ⟨none, none, 420⟩).1.tasks 1
      = some ⟨1, "/tmp/ws/new", ⟨none, none, 420⟩, []⟩ :=
  C3_duplicate_start_replaces
    ⟨"/tmp/ws", [(1, ⟨1, "/tmp/ws/old", ⟨none, none, 384⟩, [7]⟩)], [], []⟩
    1 "new" "/tmp/ws/new" ⟨none, none, 420⟩
    ⟨1, "/tmp/ws/old", ⟨none, none, 384⟩, [7]⟩ (by decide) (by decide)

/-- C2 counterexample: a `send` envelope with subject `download` and the
unrecognized event `bogus` does not make the router log and continue — the
lookup `method_mapping[payload.get('event')]` raises an uncaught `KeyError`. -/
theorem C2_unknown_event_counterexample :
    (IPADump.on_message st0
        ⟨some "send", some ⟨some "download", some "bogus", none, none, none, none⟩⟩
        []).2 = .raised .keyError
    ∧ (IPADump.on_message st0
        ⟨some "send", some ⟨some "download", some "bogus", none, none, none, none⟩⟩
        []).2 ≠ .proceed := by
  refine ⟨by decide, by decide⟩

/-- C2 amended: envelopes whose `type` is not `send` and `send` envelopes
with an unrecognized subject are logged and the router returns normally, and
the `finish` subject is the clean exit; but an unrecognized event under the
`download` subject raises an uncaught `KeyError` instead of logging and
continuing. -/
theorem C2_router_dispatch (st : IPADumpState) (msg : Msg) (data : List Nat) :
    (msg.type ≠ some "send" → IPADump.on_message st msg data = (st, .proceed))
    ∧ (∀ p, msg.type = some "send" → msg.payload = some p →
        p.subject ≠ some "download" → p.subject ≠ some "finish" →
        p.subject ≠ some "mkdir" →
        IPADump.on_message st msg data = (st, .proceed))
    ∧ (∀ p, msg.type = some "send" → msg.payload = some p →
        p.subject = some "finish" →
        IPADump.on_message st msg data = (st, .exit0))
    ∧ (∀ p, msg.type = some "send" → msg.payload = some p →
        p.subject = some "download" →
        p.event ≠ some "start" → p.event ≠ some "data" →
        p.event ≠ some "end" → p.event ≠ some "error" →
        IPADump.on_message st msg data = (st, .raised .keyError)) := by
  refine ⟨?_, ?_, ?_, ?_⟩
  · intro ht
    simp [IPADump.on_message, ht]
  · intro p ht hp h1 h2 h3
    simp [IPADump.on_message, ht, hp, h1, h2, h3]
  · intro p ht hp h1
    simp [IPADump.on_message, ht, hp, h1]
  · intro p ht hp h1 h2 h3 h4 h5
    simp [IPADump.on_message, ht, hp, h1, h2, h3, h4, h5]

/-- C2 amended witness: a non-`send` envelope, an unknown subject, and the
`finish` subject, each at a concrete message. -/
theorem C2_router_dispatch_witness :
    IPADump.on_message st0 ⟨some "log", none⟩ [] = (st0, .proceed)
    ∧ IPADump.on_message st0
        ⟨some "send", some ⟨some "weird", none, none, none, none, none⟩⟩ []
      = (st0, .proceed)
    ∧ IPADump.on_message st0
        ⟨some "send", some ⟨some "finish", none, none, none, none, none⟩⟩ []
      = (st0, .exit0) :=
  ⟨(C2_router_dispatch st0 ⟨some "log", none⟩ []).1 (by decide),
   (C2_router_dispatch st0
      ⟨some "send", some ⟨some "weird", none, none, none, none, none⟩⟩ []).2.1
     ⟨some "weird", none, none, none, none, none⟩ rfl rfl
     (by decide) (by decide) (by decide),
   (C2_router_dispatch st0
      ⟨some "send", some ⟨some "finish", none, none, none, none, none⟩⟩ []).2.2.1
     ⟨some "finish", none, none, none, none, none⟩ rfl rfl rfl⟩

/-- C6 counterexample: with both timestamps supplied (creation 1,
modification 1) and the file vanished (both syscalls would raise
`FileNotFoundError`), `finish` issues only the `utime` syscall — whose
failure aborts the `try` block — so the `chmod` permission application is
not attempted, although the claim says it is attempted even then; the
file-not-found outcome itself is swallowed. -/
theorem C6_vanished_file_counterexample :
    Task.finish ⟨1, "/tmp/ws/f", ⟨some 1, some 1, 420⟩, []⟩
        (some .fileNotFound) (some .fileNotFound)
      = ([.utime "/tmp/ws/f" 1 1], none)
    ∧ hasChmod (Task.finish ⟨1, "/tmp/ws/f", ⟨some 1, some 1, 420⟩, []⟩
        (some .fileNotFound) (some .fileNotFound)).1 = false := by
  refine ⟨by decide, by decide⟩

/-- C6 amended: `utime` is issued only when both timestamps are present and
truthy; when `all(time_pair)` fails the timestamp step is skipped without
error and `chmod` is attempted even on a vanished file, its file-not-found
swallowed; on a vanished file the outcome is always swallowed, but when both
timestamps were supplied the failing `utime` ends the `try` block before
`chmod`, so permission application is then not attempted. -/
theorem C6_finish_metadata (t : Task) (u c : Option PyErr) :
    (hasUtime (t.finish u c).1 = true → timePairAll t.info = true)
    ∧ (timePairAll t.info = false →
        (t.finish u c).1 = [.chmod t.path t.info.permission]
        ∧ (c = none → (t.finish u c).2 = none)
        ∧ (c = some .fileNotFound → (t.finish u c).2 = none))
    ∧ (u = some .fileNotFound → c = some .fileNotFound → (t.finish u c).2 = none)
    ∧ (timePairAll t.info = true → u = some .fileNotFound →
        hasChmod (t.finish u c).1 = false ∧ (t.finish u c).2 = none) := by
  refine ⟨?_, ?_, ?_, ?_⟩
  · intro hu
    by_cases hall : timePairAll t.info = true
    · exact hall
    · rw [finish_of_not_all t u c (by simpa using hall)] at hu
      simp [hasUtime] at hu
  · intro hall
    rw [finish_of_not_all t u c hall]
    refine ⟨rfl, ?_, ?_⟩ <;> intro hc <;> simp [hc]
  · intro hu hc
    by_cases hall : timePairAll t.info = true
    · obtain ⟨cv, mv, hcr, hmo, hcv, hmv⟩ := timePairAll_elim t.info hall
      rw [finish_of_all t u c cv mv hcr hmo hcv hmv, hu]
      simp
    · rw [finish_of_not_all t u c (by simpa using hall), hc]
      simp
  · intro hall hu
    obtain ⟨cv, mv, hcr, hmo, hcv, hmv⟩ := timePairAll_elim t.info hall
    rw [finish_of_all t u c cv mv hcr hmo hcv hmv, hu]
    simp [hasChmod]

/-- C6 amended witness: both timestamps absent, file vanished — `chmod` is
attempted and the file-not-found outcome swallowed; and the vanished-file
outcome is swallowed in the both-timestamps case too. -/
theorem C6_finish_metadata_witness :
    ((Task.finish ⟨1, "/w/f", ⟨none, none, 420⟩, []⟩ (some .fileNotFound)
        (some .fileNotFound)).1 = [.chmod "/w/f" 420]
      ∧ (Task.finish ⟨1, "/w/f", ⟨none, none, 420⟩, []⟩ (some .fileNotFound)
        (some .fileNotFound)).2 = none)
    ∧ (Task.finish ⟨1, "/w/f", ⟨some 1, some 1, 420⟩, []⟩ (some .fileNotFound)
        (some .fileNotFound)).2 = none :=
  ⟨⟨((C6_finish_metadata ⟨1, "/w/f", ⟨none, none, 420⟩, []⟩
        (some .fileNotFound) (some .fileNotFound)).2.1 (by decide)).1,
    ((C6_finish_metadata ⟨1, "/w/f", ⟨none, none, 420⟩, []⟩
        (some .fileNotFound) (some .fileNotFound)).2.1 (by decide)).2.2 rfl⟩,
   (C6_finish_metadata ⟨1, "/w/f", ⟨some 1, some 1, 420⟩, []⟩
        (some .fileNotFound) (some .fileNotFound)).2.2.1 rfl rfl⟩

/-- C7 counterexample: a `PermissionError` raised by `chmod` during metadata
restoration is not reported as a non-fatal warning — it propagates out of
`finish` uncaught (only `FileNotFoundError` is caught), aborting the run. -/
theorem C7_permission_error_counterexample :
    (Task.finish ⟨1, "/tmp/ws/f", ⟨none, none, 420⟩, []⟩ none
        (some .permissionError)).2 = some .permissionError := by
  decide

/-- C7 amended: exactly `FileNotFoundError` is swallowed during metadata
restoration; any other exception raised by the `utime` or `chmod` step
propagates out of `finish` uncaught (and, unhandled in the message callback,
aborts the run). -/
theorem C7_only_fnf_swallowed (t : Task) (u c : Option PyErr) (e : PyErr)
    (he : e ≠ .fileNotFound) :
    (timePairAll t.info = true → u = some e → (t.finish u c).2 = some e)
    ∧ (timePairAll t.info = true → u = none → c = some e →
        (t.finish u c).2 = some e)
    ∧ (timePairAll t.info = false → c = some e → (t.finish u c).2 = some e) := by
  refine ⟨?_, ?_, ?_⟩
  · intro hall hu
    obtain ⟨cv, mv, hcr, hmo, hcv, hmv⟩ := timePairAll_elim t.info hall
    rw [finish_of_all t u c cv mv hcr hmo hcv hmv, hu]
    simp [he]
  · intro hall hu hc
    obtain ⟨cv, mv, hcr, hmo, hcv, hmv⟩ := timePairAll_elim t.info hall
    rw [finish_of_all t u c cv mv hcr hmo hcv hmv, hu]
    simp [hc, he]
  · intro hall hc
    rw [finish_of_not_all t u c hall, hc]
    simp [he]

/-- C7 amended witness: the `PermissionError` from `chmod` surfaces both
when the timestamp step was skipped (the counterexample's configuration)
and when both timestamps were applied and `utime` succeeded first, through
the amended theorem. -/
theorem C7_only_fnf_swallowed_witness :
    (Task.finish ⟨1, "/tmp/ws/f", ⟨none, none, 420⟩, []⟩ none
        (some .permissionError)).2 = some .permissionError
    ∧ (Task.finish ⟨1, "/tmp/ws/f", ⟨some 1, some 1, 420⟩, []⟩ none
        (some .permissionError)).2 = some .permissionError :=
  ⟨(C7_only_fnf_swallowed ⟨1, "/tmp/ws/f", ⟨none, none, 420⟩, []⟩ none
      (some .permissionError) .permissionError (by decide)).2.2 (by decide) rfl,
   (C7_only_fnf_swallowed ⟨1, "/tmp/ws/f", ⟨some 1, some 1, 420⟩, []⟩ none
      (some .permissionError) .permissionError (by decide)).2.1 (by decide) rfl rfl⟩

/-- C9: when a supplied timestamp value is `0` (falsy in Python), `finish`
skips the `utime` step entirely, because `all(time_pair)` tests the values'
truthiness, not the keys' presence. -/
theorem C9_zero_timestamp_skips_utime (t : Task) (u c : Option PyErr)
    (h : t.info.creation = some 0 ∨ t.info.modification = some 0) :
    hasUtime (t.finish u c).1 = false := by
  have hall : timePairAll t.info = false := by
    rcases h with h | h <;> simp [timePairAll, pyTruthy, h]
  rw [finish_of_not_all t u c hall]
  simp [hasUtime]

/-- C9 witness: creation supplied as `0`, modification as `5` — no `utime`
syscall is issued. -/
theorem C9_zero_timestamp_skips_utime_witness :
    hasUtime (Task.finish ⟨1, "/w/f", ⟨some 0, some 5, 420⟩, []⟩ none none).1
      = false :=
  C9_zero_timestamp_skips_utime ⟨1, "/w/f", ⟨some 0, some 5, 420⟩, []⟩ none none
    (Or.inl rfl)

/-- C8: whatever the body of the `with tempfile.TemporaryDirectory()` block
does to the filesystem and however it ends — normal return, an exception, or
the `SystemExit` raised on the remote session's `finish` signal — the final
filesystem holds neither the workspace directory nor anything below it, and
the body's outcome propagates. -/
theorem C8_workspace_always_removed (fs0 : List String) (tempdir : String)
    (bodyFs : List String → List String) (bodyResult : Option PyErr) :
    tempdir ∉ (IPADump.run fs0 tempdir bodyFs bodyResult).1
    ∧ (∀ p, isUnderDir tempdir p = true →
        p ∉ (IPADump.run fs0 tempdir bodyFs bodyResult).1)
    ∧ (IPADump.run fs0 tempdir bodyFs bodyResult).2 = bodyResult := by
  refine ⟨?_, ?_, rfl⟩
  · intro hmem
    have hp := (List.mem_filter.mp hmem).2
    simp at hp
  · intro p hu hmem
    have hp := (List.mem_filter.mp hmem).2
    simp [hu] at hp

/-- C8 witness: a body that creates a file under the workspace and ends in
the `finish`-signal `SystemExit` — neither the workspace nor the file
survives the run. -/
theorem C8_workspace_always_removed_witness :
    "/tmp/ws" ∉ (IPADump.run ["/home"] "/tmp/ws"
        (fun fs => "/tmp/ws/Payload" :: fs) (some (.systemExit 0))).1
    ∧ "/tmp/ws/Payload" ∉ (IPADump.run ["/home"] "/tmp/ws"
        (fun fs => "/tmp/ws/Payload" :: fs) (some (.systemExit 0))).1 :=
  ⟨(C8_workspace_always_removed ["/home"] "/tmp/ws"
      (fun fs => "/tmp/ws/Payload" :: fs) (some (.systemExit 0))).1,
   (C8_workspace_always_removed ["/home"] "/tmp/ws"
      (fun fs => "/tmp/ws/Payload" :: fs) (some (.systemExit 0))).2.1
     "/tmp/ws/Payload" (by decide)⟩

end Dump
